import Mathlib

/-!
# The network test-case driver of TizenRT

A model of `apps/examples/testcase/le_tc/network/network_tc_main.c`.

The driver is a straight-line function: it takes the semaphore `tc_sem`,
bumps `working_tc`, clears the two result counters, prints a banner, calls
every test-case entry point whose `CONFIG_*` switch is defined, prints the
totals, undoes the bump, gives the semaphore back and returns `0`.

The model keeps the function as the list of its statements (one list item
per source line, the `#ifdef` blocks included) together with the meaning of
each statement on the process-wide variables.  Running the list yields the
final variables, the returned value and the log of executed statements with
the variables seen by each of them.

`int` is the 32-bit two's-complement integer of the supported targets; the
only arithmetic the driver performs itself, `working_tc++` and
`working_tc--`, wraps accordingly (an `int` cannot hold `INT_MAX + 1`
whatever the compiler makes of the overflow).  When `CONFIG_BUILD_KERNEL` is
defined the same function is compiled under the name `main`; nothing else
changes.

The calls the driver makes into other files, `sem_wait`, `sem_post` and the
entry points, are parameters of the model and are taken to return.  The
model is sequential: it follows one caller from entry to `return`.
-/

namespace NetworkTc

/-! ## Build-time configuration and entry points -/

/-- The configuration switches tested by the `#ifdef` lines of the driver. -/
inductive Flag
  | CONFIG_TC_NET_SOCKET
  | CONFIG_TC_NET_SETSOCKOPT
  | CONFIG_TC_NET_CONNECT
  | CONFIG_TC_NET_CLOSE
  | CONFIG_TC_NET_BIND
  | CONFIG_TC_NET_LISTEN
  | CONFIG_TC_NET_GETSOCKNAME
  | CONFIG_TC_NET_GETSOCKOPT
  | CONFIG_TC_NET_FCNTL
  | CONFIG_TC_NET_IOCTL
  | CONFIG_TC_NET_ACCEPT
  | CONFIG_TC_NET_SEND
  | CONFIG_TC_NET_RECV
  | CONFIG_TC_NET_GETPEERNAME
  | CONFIG_TC_NET_SENDTO
  | CONFIG_TC_NET_RECVFROM
  | CONFIG_TC_NET_SHUTDOWN
  | CONFIG_TC_NET_DHCPC
  | CONFIG_TC_NET_SELECT
  | CONFIG_TC_NET_INET
  | CONFIG_TC_NET_ETHER
  | CONFIG_TC_NET_NETDB
  | CONFIG_TC_NET_DUP
  | CONFIG_ITC_NET_CLOSE
  | CONFIG_ITC_NET_DUP
  | CONFIG_ITC_NET_FCNTL
  | CONFIG_ITC_NET_LISTEN
  deriving DecidableEq, Repr

/-- The test-case entry points (declared in `tc_internal.h`) that the driver
can call.  Each takes no argument and returns nothing. -/
inductive Entry
  | net_socket_main
  | net_setsockopt_main
  | net_connect_main
  | net_close_main
  | net_bind_main
  | net_listen_main
  | net_getsockname_main
  | net_getsockopt_main
  | net_fcntl_main
  | net_ioctl_main
  | net_accept_main
  | net_send_main
  | net_recv_main
  | net_getpeername_main
  | net_sendto_main
  | net_recvfrom_main
  | net_shutdown_main
  | net_dhcpc_main
  | net_select_main
  | net_inet_main
  | net_ether_main
  | net_netdb_main
  | net_dup_main
  | itc_net_close_main
  | itc_net_dup_main
  | itc_net_fcntl_main
  | itc_net_listen_main
  deriving DecidableEq, Repr

/-- A build configuration: `cfg f = true` when the switch `f` is defined. -/
abbrev Config := Flag → Bool

/-! ## Process-wide state -/

/-- Least value of `int`. -/
def INT_MIN : Int := -2147483648

/-- Greatest value of `int`. -/
def INT_MAX : Int := 2147483647

/-- Reduction of a mathematical integer to the `int` that a 32-bit
two's-complement machine stores for it. -/
def wrapInt (x : Int) : Int := (x + 2147483648) % 4294967296 - 2147483648

/-- The variables the driver reads and writes: the count of the semaphore
`tc_sem`, the `int`s `working_tc`, `total_pass`, `total_fail`, and the text
written to standard output so far.  Entry points see all of them. -/
structure Globals where
  tc_sem : Int
  working_tc : Int
  total_pass : Int
  total_fail : Int
  stdout : String
  deriving DecidableEq, Repr

/-- The code the driver calls but does not contain: what a returning
`sem_wait(&tc_sem)` and `sem_post(&tc_sem)` do to the semaphore count, and
what each entry point does to the variables.  The driver discards the
values returned by the two semaphore calls. -/
structure Env where
  sem_wait : Int → Int
  sem_post : Int → Int
  tc : Entry → Globals → Globals

/-! ## Statements -/

/-- The statements that occur in the body of `network_tc_main`. -/
inductive Stmt
  /-- The statement `sem_wait(&tc_sem);` -/
  | sem_wait
  /-- The statement `working_tc++;` -/
  | working_tc_incr
  /-- The statement `total_pass = v;` -/
  | assign_total_pass (v : Int)
  /-- The statement `total_fail = v;` -/
  | assign_total_fail (v : Int)
  /-- The statement `printf("\n########## Network TC Start ##########\n");` -/
  | printf_start
  /-- A call `e();` of an entry point. -/
  | call (e : Entry)
  /-- The statement `printf("\n########## Network TC End [PASS : %d, FAIL : %d] ##########\n", total_pass, total_fail);` -/
  | printf_end
  /-- The statement `working_tc--;` -/
  | working_tc_decr
  /-- The statement `sem_post(&tc_sem);` -/
  | sem_post
  /-- The statement `return v;` -/
  | ret (v : Int)
  deriving DecidableEq, Repr

/-- The text of the first `printf`. -/
def startText : String := "\n########## Network TC Start ##########\n"

/-- The text of the second `printf` for the counter values `p` and `f`;
`%d` prints an `int` in decimal, with a leading `-` when negative. -/
def endText (p f : Int) : String :=
  "\n########## Network TC End [PASS : " ++ toString p ++ ", FAIL : " ++ toString f
    ++ "] ##########\n"

/-- The text a statement writes to standard output when it runs on `g`;
`none` for the statements that are not a `printf` of the driver. -/
def Stmt.output : Stmt → Globals → Option String
  | .printf_start, _ => some startText
  | .printf_end, g => some (endText g.total_pass g.total_fail)
  | _, _ => none

/-- The effect of one statement on the variables. -/
def exec (env : Env) : Stmt → Globals → Globals
  | .sem_wait, g => { g with tc_sem := env.sem_wait g.tc_sem }
  | .working_tc_incr, g => { g with working_tc := wrapInt (g.working_tc + 1) }
  | .assign_total_pass v, g => { g with total_pass := v }
  | .assign_total_fail v, g => { g with total_fail := v }
  | .printf_start, g => { g with stdout := g.stdout ++ startText }
  | .call e, g => env.tc e g
  | .printf_end, g => { g with stdout := g.stdout ++ endText g.total_pass g.total_fail }
  | .working_tc_decr, g => { g with working_tc := wrapInt (g.working_tc - 1) }
  | .sem_post, g => { g with tc_sem := env.sem_post g.tc_sem }
  | .ret _, g => g

/-- One executed statement, with the variables just before and just after. -/
structure Event where
  stmt : Stmt
  before : Globals
  after : Globals
  deriving DecidableEq, Repr

/-- The result of running a statement list: the final variables, the log of
executed statements, and the returned value (`none` when control reaches the
end of the list without a `return`). -/
structure Outcome where
  g : Globals
  trace : List Event
  ret : Option Int
  deriving DecidableEq, Repr

/-- Run a statement list from the variables `g`.  A `return` ends the run;
statements after it are not executed. -/
def run (env : Env) : List Stmt → Globals → Outcome
  | [], g => ⟨g, [], none⟩
  | .ret v :: _, g => ⟨g, [⟨.ret v, g, g⟩], some v⟩
  | s :: rest, g =>
    let r := run env rest (exec env s g)
    ⟨r.g, ⟨s, g, exec env s g⟩ :: r.trace, r.ret⟩

/-! ## The driver -/

/-- Code kept by the preprocessor only when the switch `f` is defined:
`#ifdef f` ... `#endif`. -/
def ifdef (cfg : Config) (f : Flag) (code : List Stmt) : List Stmt :=
  if cfg f then code else []

/-- The body of `network_tc_main` after preprocessing under `cfg`, line by
line as in the source file. -/
def network_tc_main_body (cfg : Config) : List Stmt :=
  [ .sem_wait,
    .working_tc_incr,
    .assign_total_pass 0,
    .assign_total_fail 0,
    .printf_start ] ++
  ifdef cfg .CONFIG_TC_NET_SOCKET [.call .net_socket_main] ++
  ifdef cfg .CONFIG_TC_NET_SETSOCKOPT [.call .net_setsockopt_main] ++
  ifdef cfg .CONFIG_TC_NET_CONNECT [.call .net_connect_main] ++
  ifdef cfg .CONFIG_TC_NET_CLOSE [.call .net_close_main] ++
  ifdef cfg .CONFIG_TC_NET_BIND [.call .net_bind_main] ++
  ifdef cfg .CONFIG_TC_NET_LISTEN [.call .net_listen_main] ++
  ifdef cfg .CONFIG_TC_NET_GETSOCKNAME [.call .net_getsockname_main] ++
  ifdef cfg .CONFIG_TC_NET_GETSOCKOPT [.call .net_getsockopt_main] ++
  ifdef cfg .CONFIG_TC_NET_FCNTL [.call .net_fcntl_main] ++
  ifdef cfg .CONFIG_TC_NET_IOCTL [.call .net_ioctl_main] ++
  ifdef cfg .CONFIG_TC_NET_ACCEPT [.call .net_accept_main] ++
  ifdef cfg .CONFIG_TC_NET_SEND [.call .net_send_main] ++
  ifdef cfg .CONFIG_TC_NET_RECV [.call .net_recv_main] ++
  ifdef cfg .CONFIG_TC_NET_GETPEERNAME [.call .net_getpeername_main] ++
  ifdef cfg .CONFIG_TC_NET_SENDTO [.call .net_sendto_main] ++
  ifdef cfg .CONFIG_TC_NET_RECVFROM [.call .net_recvfrom_main] ++
  ifdef cfg .CONFIG_TC_NET_SHUTDOWN [.call .net_shutdown_main] ++
  ifdef cfg .CONFIG_TC_NET_DHCPC [.call .net_dhcpc_main] ++
  ifdef cfg .CONFIG_TC_NET_SELECT [.call .net_select_main] ++
  ifdef cfg .CONFIG_TC_NET_INET [.call .net_inet_main] ++
  ifdef cfg .CONFIG_TC_NET_ETHER [.call .net_ether_main] ++
  ifdef cfg .CONFIG_TC_NET_NETDB [.call .net_netdb_main] ++
  ifdef cfg .CONFIG_TC_NET_DUP [.call .net_dup_main] ++
  ifdef cfg .CONFIG_ITC_NET_CLOSE [.call .itc_net_close_main] ++
  ifdef cfg .CONFIG_ITC_NET_DUP [.call .itc_net_dup_main] ++
  ifdef cfg .CONFIG_ITC_NET_FCNTL [.call .itc_net_fcntl_main] ++
  ifdef cfg .CONFIG_ITC_NET_LISTEN [.call .itc_net_listen_main] ++
  [ .printf_end,
    .working_tc_decr,
    .sem_post,
    .ret 0 ]

/-- The function `int network_tc_main(int argc, char *argv[])`, built under
`cfg` and started with the variables `g`.  The two parameters are not used
by the body. -/
def network_tc_main (env : Env) (cfg : Config) (_argc : Int) (_argv : List String)
    (g : Globals) : Outcome :=
  run env (network_tc_main_body cfg) g

/-! ## Observations on a run -/

/-- The entry points called, in the order of the calls. -/
def callTrace (tr : List Event) : List Entry :=
  tr.filterMap fun ev => match ev.stmt with
    | .call e => some e
    | _ => none

/-- The pieces of text the driver itself wrote to standard output, in order
(the output of entry points is not part of it). -/
def driverWrites (tr : List Event) : List String :=
  tr.filterMap fun ev => ev.stmt.output ev.before

/-- The statements executed, in order. -/
def actions (tr : List Event) : List Stmt := tr.map Event.stmt

/-! ## The order of entry points as the specification lists it -/

/-- The switch that guards an entry point. -/
def Entry.flag : Entry → Flag
  | .net_socket_main => .CONFIG_TC_NET_SOCKET
  | .net_setsockopt_main => .CONFIG_TC_NET_SETSOCKOPT
  | .net_connect_main => .CONFIG_TC_NET_CONNECT
  | .net_close_main => .CONFIG_TC_NET_CLOSE
  | .net_bind_main => .CONFIG_TC_NET_BIND
  | .net_listen_main => .CONFIG_TC_NET_LISTEN
  | .net_getsockname_main => .CONFIG_TC_NET_GETSOCKNAME
  | .net_getsockopt_main => .CONFIG_TC_NET_GETSOCKOPT
  | .net_fcntl_main => .CONFIG_TC_NET_FCNTL
  | .net_ioctl_main => .CONFIG_TC_NET_IOCTL
  | .net_accept_main => .CONFIG_TC_NET_ACCEPT
  | .net_send_main => .CONFIG_TC_NET_SEND
  | .net_recv_main => .CONFIG_TC_NET_RECV
  | .net_getpeername_main => .CONFIG_TC_NET_GETPEERNAME
  | .net_sendto_main => .CONFIG_TC_NET_SENDTO
  | .net_recvfrom_main => .CONFIG_TC_NET_RECVFROM
  | .net_shutdown_main => .CONFIG_TC_NET_SHUTDOWN
  | .net_dhcpc_main => .CONFIG_TC_NET_DHCPC
  | .net_select_main => .CONFIG_TC_NET_SELECT
  | .net_inet_main => .CONFIG_TC_NET_INET
  | .net_ether_main => .CONFIG_TC_NET_ETHER
  | .net_netdb_main => .CONFIG_TC_NET_NETDB
  | .net_dup_main => .CONFIG_TC_NET_DUP
  | .itc_net_close_main => .CONFIG_ITC_NET_CLOSE
  | .itc_net_dup_main => .CONFIG_ITC_NET_DUP
  | .itc_net_fcntl_main => .CONFIG_ITC_NET_FCNTL
  | .itc_net_listen_main => .CONFIG_ITC_NET_LISTEN

/-- The declared order: socket, setsockopt, connect, close, bind, listen,
getsockname, getsockopt, fcntl, ioctl, accept, send, recv, getpeername,
sendto, recvfrom, shutdown, dhcpc, select, inet, ether, netdb, dup,
itc_close, itc_dup, itc_fcntl, itc_listen. -/
def declaredOrder : List Entry :=
  [ .net_socket_main, .net_setsockopt_main, .net_connect_main, .net_close_main,
    .net_bind_main, .net_listen_main, .net_getsockname_main, .net_getsockopt_main,
    .net_fcntl_main, .net_ioctl_main, .net_accept_main, .net_send_main,
    .net_recv_main, .net_getpeername_main, .net_sendto_main, .net_recvfrom_main,
    .net_shutdown_main, .net_dhcpc_main, .net_select_main, .net_inet_main,
    .net_ether_main, .net_netdb_main, .net_dup_main, .itc_net_close_main,
    .itc_net_dup_main, .itc_net_fcntl_main, .itc_net_listen_main ]

/-- The declared list filtered by the enabled switches. -/
def enabledEntries (cfg : Config) : List Entry :=
  declaredOrder.filter fun e => cfg e.flag

/-! ## Runs of a list of calls -/

/-- The variables after the entry points of `l` were called in order from `g`. -/
def afterCalls (env : Env) : List Entry → Globals → Globals
  | [], g => g
  | e :: l, g => afterCalls env l (env.tc e g)

/-- The log of calling the entry points of `l` in order from `g`. -/
def callEvents (env : Env) : List Entry → Globals → List Event
  | [], _ => []
  | e :: l, g => ⟨.call e, g, env.tc e g⟩ :: callEvents env l (env.tc e g)

/-- The variables at the first `#ifdef` line: after the four opening
statements and the first `printf`. -/
def atDispatch (env : Env) (g : Globals) : Globals :=
  exec env .printf_start (exec env (.assign_total_fail 0) (exec env (.assign_total_pass 0)
    (exec env .working_tc_incr (exec env .sem_wait g))))

/-- The log of the five opening statements. -/
def openingEvents (env : Env) (g : Globals) : List Event :=
  let g1 := exec env .sem_wait g
  let g2 := exec env .working_tc_incr g1
  let g3 := exec env (.assign_total_pass 0) g2
  let g4 := exec env (.assign_total_fail 0) g3
  [⟨.sem_wait, g, g1⟩, ⟨.working_tc_incr, g1, g2⟩, ⟨.assign_total_pass 0, g2, g3⟩,
   ⟨.assign_total_fail 0, g3, g4⟩, ⟨.printf_start, g4, exec env .printf_start g4⟩]

/-- The log of the four closing statements, run from `g`. -/
def closingEvents (env : Env) (g : Globals) : List Event :=
  let g1 := exec env .printf_end g
  let g2 := exec env .working_tc_decr g1
  let g3 := exec env .sem_post g2
  [⟨.printf_end, g, g1⟩, ⟨.working_tc_decr, g1, g2⟩, ⟨.sem_post, g2, g3⟩, ⟨.ret 0, g3, g3⟩]

/-- The variables after the closing statements, run from `g`. -/
def atReturn (env : Env) (g : Globals) : Globals :=
  exec env .sem_post (exec env .working_tc_decr (exec env .printf_end g))

/-! ## The banners as the specification words them -/

/-- The start banner line. -/
def startBanner : String := "########## Network TC Start ##########"

/-- The end banner line for the decimal renderings `p` and `f`. -/
def endBanner (p f : String) : String :=
  "########## Network TC End [PASS : " ++ p ++ ", FAIL : " ++ f ++ "] ##########"

/-- The driver writes and the entry-point calls of a log, in order. -/
def writesAndCalls (tr : List Event) : List (String ⊕ Entry) :=
  tr.filterMap fun ev => match ev.stmt with
    | .call e => some (.inr e)
    | s => (s.output ev.before).map .inl

/-- Whether a statement is an entry-point call or the end `printf`: the
places where the counters are first used after the reset. -/
def Stmt.usesCounters : Stmt → Bool
  | .call _ => true
  | .printf_end => true
  | _ => false

/-! ## Sample configurations and behaviours -/

/-- A semaphore that counts down on `sem_wait` and up on `sem_post`, with
entry points that each record one passed check. -/
def envOnePass : Env where
  sem_wait := fun c => c - 1
  sem_post := fun c => c + 1
  tc := fun _ g => { g with total_pass := g.total_pass + 1 }

/-- The same semaphore, with entry points that each record two failed checks. -/
def envTwoFail : Env where
  sem_wait := fun c => c - 1
  sem_post := fun c => c + 1
  tc := fun _ g => { g with total_fail := g.total_fail + 2 }

/-- No switch defined. -/
def cfgNone : Config := fun _ => false

/-- Only the socket, bind and listen switches defined. -/
def cfgSocketBindListen : Config := fun f =>
  f == .CONFIG_TC_NET_SOCKET || f == .CONFIG_TC_NET_BIND || f == .CONFIG_TC_NET_LISTEN

/-- Only the DHCP-client switch defined. -/
def cfgDhcpc : Config := fun f => f == .CONFIG_TC_NET_DHCPC

/-- Variables as an earlier run may have left them: free semaphore, no run
in progress, stale counters. -/
def gStale : Globals := ⟨1, 0, 7, 5, "earlier output\n"⟩

/-- Variables with `working_tc` at the greatest `int`. -/
def gWorkingMax : Globals := ⟨1, 2147483647, 0, 0, ""⟩

/-! ## Basic facts about `run` -/

theorem ifdef_call (cfg : Config) (e : Entry) (l : List Entry) :
    ((e :: l).filter fun e => cfg e.flag).map Stmt.call
      = ifdef cfg e.flag [.call e] ++ (l.filter fun e => cfg e.flag).map Stmt.call := by
  cases h : cfg e.flag <;> simp [ifdef, h]

/-- The preprocessed body is the fixed opening, one call per enabled entry
point in declared order, and the fixed closing. -/
theorem body_eq (cfg : Config) :
    network_tc_main_body cfg
      = [.sem_wait, .working_tc_incr, .assign_total_pass 0, .assign_total_fail 0,
          .printf_start]
        ++ ((enabledEntries cfg).map Stmt.call
        ++ [.printf_end, .working_tc_decr, .sem_post, .ret 0]) := by
  simp only [enabledEntries, declaredOrder, ifdef_call, List.filter_nil, List.map_nil]
  simp only [Entry.flag, network_tc_main_body, List.append_assoc, List.nil_append]

theorem run_calls (env : Env) (l : List Entry) (rest : List Stmt) (g : Globals) :
    run env (l.map Stmt.call ++ rest) g
      = ⟨(run env rest (afterCalls env l g)).g,
         callEvents env l g ++ (run env rest (afterCalls env l g)).trace,
         (run env rest (afterCalls env l g)).ret⟩ := by
  induction l generalizing g with
  | nil => simp [afterCalls, callEvents]
  | cons e l ih => simp [run, ih, afterCalls, callEvents, exec]

/-- The whole run, statement by statement. -/
theorem main_shape (env : Env) (cfg : Config) (argc : Int) (argv : List String)
    (g : Globals) :
    network_tc_main env cfg argc argv g
      = ⟨atReturn env (afterCalls env (enabledEntries cfg) (atDispatch env g)),
         openingEvents env g
           ++ (callEvents env (enabledEntries cfg) (atDispatch env g)
           ++ closingEvents env (afterCalls env (enabledEntries cfg) (atDispatch env g))),
         some 0⟩ := by
  unfold network_tc_main
  rw [body_eq]
  simp only [List.cons_append, List.nil_append, run, List.append_eq]
  rw [run_calls]
  simp only [run]
  rfl

/-! ## Observations on the three parts of the log -/

theorem callTrace_append (a b : List Event) :
    callTrace (a ++ b) = callTrace a ++ callTrace b := by
  simp [callTrace, List.filterMap_append]

theorem callTrace_opening (env : Env) (g : Globals) : callTrace (openingEvents env g) = [] := by
  simp [callTrace, openingEvents]

theorem callTrace_closing (env : Env) (g : Globals) : callTrace (closingEvents env g) = [] := by
  simp [callTrace, closingEvents]

theorem callTrace_callEvents (env : Env) (l : List Entry) (g : Globals) :
    callTrace (callEvents env l g) = l := by
  induction l generalizing g with
  | nil => rfl
  | cons e l ih =>
    have h := ih (env.tc e g)
    simp only [callTrace] at h
    simp [callTrace, callEvents, h]

theorem actions_callEvents (env : Env) (l : List Entry) (g : Globals) :
    actions (callEvents env l g) = l.map Stmt.call := by
  induction l generalizing g with
  | nil => rfl
  | cons e l ih =>
    have h := ih (env.tc e g)
    simp only [actions] at h
    simp [actions, callEvents, h]

theorem callTrace_main (env : Env) (cfg : Config) (argc : Int) (argv : List String)
    (g : Globals) :
    callTrace (network_tc_main env cfg argc argv g).trace = enabledEntries cfg := by
  rw [main_shape]
  simp [callTrace_append, callTrace_opening, callTrace_closing, callTrace_callEvents]

theorem count_declaredOrder (e : Entry) : declaredOrder.count e = 1 := by
  cases e <;> rfl

theorem driverWrites_append (a b : List Event) :
    driverWrites (a ++ b) = driverWrites a ++ driverWrites b := by
  simp [driverWrites, List.filterMap_append]

theorem driverWrites_callEvents (env : Env) (l : List Entry) (g : Globals) :
    driverWrites (callEvents env l g) = [] := by
  induction l generalizing g with
  | nil => rfl
  | cons e l ih =>
    have h := ih (env.tc e g)
    have ho : (Stmt.call e).output g = none := rfl
    simp only [driverWrites] at h
    simp only [driverWrites, callEvents, List.filterMap_cons, ho, h]

theorem driverWrites_main (env : Env) (cfg : Config) (argc : Int) (argv : List String)
    (g : Globals) :
    driverWrites (network_tc_main env cfg argc argv g).trace
      = [startText,
         endText (afterCalls env (enabledEntries cfg) (atDispatch env g)).total_pass
           (afterCalls env (enabledEntries cfg) (atDispatch env g)).total_fail] := by
  rw [main_shape]
  simp only [driverWrites_append, driverWrites_callEvents]
  simp [driverWrites, openingEvents, closingEvents, Stmt.output]

theorem atDispatch_counters (env : Env) (g : Globals) :
    (atDispatch env g).total_pass = 0 ∧ (atDispatch env g).total_fail = 0 := by
  simp [atDispatch, exec]

theorem mem_callEvents_after (env : Env) (l : List Entry) (g : Globals) (ev : Event)
    (h : ev ∈ callEvents env l g) : ∃ e, ev.stmt = .call e ∧ ev.after = env.tc e ev.before := by
  induction l generalizing g with
  | nil => simp [callEvents] at h
  | cons e l ih =>
    simp only [callEvents, List.mem_cons] at h
    rcases h with h | h
    · exact ⟨e, by simp [h]⟩
    · exact ih _ h

/-- Counters after a list of calls, when every call of the log adds the
amounts `p` and `f`. -/
theorem afterCalls_counters (env : Env) (p f : Entry → Int) (l : List Entry) (g : Globals)
    (h : ∀ ev ∈ callEvents env l g, ∀ e, ev.stmt = .call e →
      ev.after.total_pass = ev.before.total_pass + p e
        ∧ ev.after.total_fail = ev.before.total_fail + f e) :
    (afterCalls env l g).total_pass = g.total_pass + (l.map p).sum
      ∧ (afterCalls env l g).total_fail = g.total_fail + (l.map f).sum := by
  induction l generalizing g with
  | nil => simp [afterCalls]
  | cons e l ih =>
    have h0 := h ⟨.call e, g, env.tc e g⟩ (by simp [callEvents]) e rfl
    have ht := ih (env.tc e g) (fun ev hev => h ev (by simp [callEvents, hev]))
    simp only [afterCalls, List.map_cons, List.sum_cons]
    simp only at h0
    rw [ht.1, ht.2, h0.1, h0.2]
    constructor <;> ring

/-- Every logged statement carries the variables its execution produced. -/
theorem run_trace_after (env : Env) (ss : List Stmt) (g : Globals) :
    ∀ ev ∈ (run env ss g).trace, ev.after = exec env ev.stmt ev.before := by
  induction ss generalizing g with
  | nil => simp [run]
  | cons s ss ih =>
    cases s <;> simp only [run, List.mem_cons, List.mem_singleton, List.not_mem_nil, or_false]
    all_goals
      first
      | (intro ev hev
         rcases hev with hev | hev
         · subst hev; rfl
         · exact ih _ ev hev)
      | (intro ev hev; subst hev; rfl)

theorem startText_eq : startText = "\n" ++ startBanner ++ "\n" := by decide

theorem endText_eq (p f : Int) :
    endText p f = "\n" ++ endBanner (toString p) (toString f) ++ "\n" := by
  have h1 : "\n" ++ "########## Network TC End [PASS : "
      = "\n########## Network TC End [PASS : " := by decide
  have h2 : "] ##########" ++ "\n" = "] ##########\n" := by decide
  simp only [endText, endBanner, String.append_assoc, h2]
  rw [← String.append_assoc "\n", h1]

theorem writesAndCalls_append (a b : List Event) :
    writesAndCalls (a ++ b) = writesAndCalls a ++ writesAndCalls b := by
  simp [writesAndCalls, List.filterMap_append]

theorem writesAndCalls_callEvents (env : Env) (l : List Entry) (g : Globals) :
    writesAndCalls (callEvents env l g) = l.map .inr := by
  induction l generalizing g with
  | nil => rfl
  | cons e l ih =>
    have h := ih (env.tc e g)
    simp only [writesAndCalls] at h
    simp only [writesAndCalls, callEvents, List.filterMap_cons, List.map_cons, h]

theorem atDispatch_reset_irrelevant (env : Env) (g : Globals) (p f : Int) :
    atDispatch env { g with total_pass := p, total_fail := f } = atDispatch env g := by
  simp [atDispatch, exec]

/-- Through a list of calls that leave `working_tc` alone, every call sees
and leaves the value the list started with. -/
theorem callEvents_working_tc (env : Env) (l : List Entry) (g : Globals)
    (h : ∀ ev ∈ callEvents env l g, ∀ e, ev.stmt = .call e →
      ev.after.working_tc = ev.before.working_tc) :
    (afterCalls env l g).working_tc = g.working_tc
      ∧ ∀ ev ∈ callEvents env l g,
          ev.before.working_tc = g.working_tc ∧ ev.after.working_tc = g.working_tc := by
  induction l generalizing g with
  | nil => simp [afterCalls, callEvents]
  | cons e l ih =>
    have h0 := h ⟨.call e, g, env.tc e g⟩ (by simp [callEvents]) e rfl
    simp only at h0
    have ht := ih (env.tc e g) (fun ev hev => h ev (by simp [callEvents, hev]))
    refine ⟨by rw [afterCalls, ht.1, h0], ?_⟩
    intro ev hev
    simp only [callEvents, List.mem_cons] at hev
    rcases hev with hev | hev
    · subst hev
      exact ⟨rfl, h0⟩
    · have := ht.2 ev hev
      rw [h0] at this
      exact this

/-- A logged call of the whole run is one of the logged dispatch calls. -/
theorem mem_main_call (env : Env) (cfg : Config) (argc : Int) (argv : List String)
    (g : Globals) (ev : Event) (e : Entry) (he : ev.stmt = .call e) :
    ev ∈ (network_tc_main env cfg argc argv g).trace
      ↔ ev ∈ callEvents env (enabledEntries cfg) (atDispatch env g) := by
  rw [main_shape]
  simp only [List.mem_append]
  constructor
  · rintro (h | h | h)
    · simp [openingEvents] at h
      rcases h with h | h | h | h | h <;> rw [h] at he <;> simp at he
    · exact h
    · simp [closingEvents] at h
      rcases h with h | h | h | h <;> rw [h] at he <;> simp at he
  · exact fun h => Or.inr (Or.inl h)

theorem body_count_sem_wait (cfg : Config) :
    (network_tc_main_body cfg).count .sem_wait = 1 := by
  rw [body_eq, List.count_append, List.count_append]
  have : ((enabledEntries cfg).map Stmt.call).count .sem_wait = 0 :=
    List.count_eq_zero.mpr fun hm => by simp at hm
  rw [this]
  decide

theorem body_count_sem_post (cfg : Config) :
    (network_tc_main_body cfg).count .sem_post = 1 := by
  rw [body_eq, List.count_append, List.count_append]
  have : ((enabledEntries cfg).map Stmt.call).count .sem_post = 0 :=
    List.count_eq_zero.mpr fun hm => by simp at hm
  rw [this]
  decide

theorem body_count_incr (cfg : Config) :
    (network_tc_main_body cfg).count .working_tc_incr = 1 := by
  rw [body_eq, List.count_append, List.count_append]
  have : ((enabledEntries cfg).map Stmt.call).count .working_tc_incr = 0 :=
    List.count_eq_zero.mpr fun hm => by simp at hm
  rw [this]
  decide

theorem body_count_decr (cfg : Config) :
    (network_tc_main_body cfg).count .working_tc_decr = 1 := by
  rw [body_eq, List.count_append, List.count_append]
  have : ((enabledEntries cfg).map Stmt.call).count .working_tc_decr = 0 :=
    List.count_eq_zero.mpr fun hm => by simp at hm
  rw [this]
  decide

/-- Every statement of the preprocessed body is executed, in order. -/
theorem actions_main (env : Env) (cfg : Config) (argc : Int) (argv : List String)
    (g : Globals) :
    actions (network_tc_main env cfg argc argv g).trace = network_tc_main_body cfg := by
  rw [main_shape, body_eq]
  simp only [actions, List.map_append]
  have h := actions_callEvents env (enabledEntries cfg) (atDispatch env g)
  simp only [actions] at h
  rw [h]
  simp [openingEvents, closingEvents]

/-! ## Properties of the driver -/

/-- C1: for every build configuration (every subset of the 27 switches), every
behaviour of the called code and every initial state, the entry points called
by one run of `network_tc_main` are the declared list filtered by the enabled
switches, in that order; hence an entry point is called once when its switch
is defined and not at all otherwise. -/
theorem network_tc_main_calls_exactly_enabled (env : Env) (cfg : Config) (argc : Int)
    (argv : List String) (g : Globals) :
    callTrace (network_tc_main env cfg argc argv g).trace
        = declaredOrder.filter (fun e => cfg e.flag)
      ∧ ∀ e : Entry, (callTrace (network_tc_main env cfg argc argv g).trace).count e
          = if cfg e.flag then 1 else 0 := by
  rw [callTrace_main]
  refine ⟨rfl, fun e => ?_⟩
  unfold enabledEntries
  cases h : cfg e.flag
  · simp only [Bool.false_eq_true, if_false]
    exact List.count_eq_zero.mpr fun hm => by simp [List.mem_filter, h] at hm
  · simp only [if_true]
    rw [List.count_filter (by simpa using h)]
    exact count_declaredOrder e

/-- C5: whatever the arguments, the configuration, the initial state and the
behaviour of the (returning) called code, `network_tc_main` returns 0; the
value does not depend on the final `total_fail`. -/
theorem network_tc_main_returns_zero (env : Env) (cfg : Config) (argc : Int)
    (argv : List String) (g : Globals) :
    (network_tc_main env cfg argc argv g).ret = some 0 := by
  rw [main_shape]

/-- C7: the statements executed by one run are, in order: `sem_wait`,
`working_tc++`, the two counter resets, the start `printf`, the calls of the
enabled entry points, the end `printf`, `working_tc--`, `sem_post`,
`return 0`.  So `sem_wait` and `sem_post` are each executed exactly once, and
the run ends by `sem_post` followed by the only `return`. -/
theorem network_tc_main_action_sequence (env : Env) (cfg : Config) (argc : Int)
    (argv : List String) (g : Globals) :
    actions (network_tc_main env cfg argc argv g).trace
        = [.sem_wait, .working_tc_incr, .assign_total_pass 0, .assign_total_fail 0,
            .printf_start]
          ++ (declaredOrder.filter (fun e => cfg e.flag)).map Stmt.call
          ++ [.printf_end, .working_tc_decr, .sem_post, .ret 0]
      ∧ (actions (network_tc_main env cfg argc argv g).trace).count .sem_wait = 1
      ∧ (actions (network_tc_main env cfg argc argv g).trace).count .sem_post = 1
      ∧ (network_tc_main env cfg argc argv g).ret = some 0 := by
  refine ⟨?_, by rw [actions_main, body_count_sem_wait],
    by rw [actions_main, body_count_sem_post], by rw [main_shape]⟩
  rw [actions_main, body_eq]
  simp [enabledEntries]

/-- C9: the sequence of entry points called depends on the build
configuration only: two runs under the same configuration call the same
entry points in the same order, whatever their arguments, their initial
variables and the behaviour of the called code (in particular whatever
earlier entry points did to the counters). -/
theorem network_tc_main_calls_depend_on_config_only (env env2 : Env) (cfg : Config)
    (argc argc2 : Int) (argv argv2 : List String) (g g2 : Globals) :
    callTrace (network_tc_main env cfg argc argv g).trace
      = callTrace (network_tc_main env2 cfg argc2 argv2 g2).trace := by
  rw [callTrace_main, callTrace_main]

/-- C2: if every call made during the run adds `p e` to `total_pass` and `f e`
to `total_fail` (`e` being the entry point called), the driver writes the
start banner and then the end banner with PASS equal to the sum of `p` and
FAIL equal to the sum of `f` over the enabled entry points. -/
theorem network_tc_main_reports_sums (env : Env) (cfg : Config) (argc : Int)
    (argv : List String) (g : Globals) (p f : Entry → Int)
    (h : ∀ ev ∈ (network_tc_main env cfg argc argv g).trace, ∀ e, ev.stmt = .call e →
      ev.after.total_pass = ev.before.total_pass + p e
        ∧ ev.after.total_fail = ev.before.total_fail + f e) :
    driverWrites (network_tc_main env cfg argc argv g).trace
      = [startText,
         endText ((declaredOrder.filter (fun e => cfg e.flag)).map p).sum
           ((declaredOrder.filter (fun e => cfg e.flag)).map f).sum] := by
  rw [driverWrites_main]
  rw [main_shape] at h
  have hc := afterCalls_counters env p f (enabledEntries cfg) (atDispatch env g)
    (fun ev hev => h ev (by simp [hev]))
  have hz := atDispatch_counters env g
  rw [hc.1, hc.2, hz.1, hz.2]
  simp [enabledEntries]

/-- Instances of C2: stale counters 7 and 5 on entry; socket, bind and listen
enabled, one pass each, gives PASS 3, FAIL 0; no switch gives PASS 0,
FAIL 0; one enabled entry point recording two failures gives PASS 0, FAIL 2. -/
theorem network_tc_main_reports_sums_witness :
    driverWrites (network_tc_main envOnePass cfgSocketBindListen 1 ["network_tc"] gStale).trace
        = ["\n########## Network TC Start ##########\n",
           "\n########## Network TC End [PASS : 3, FAIL : 0] ##########\n"]
      ∧ driverWrites (network_tc_main envOnePass cfgNone 1 ["network_tc"] gStale).trace
        = ["\n########## Network TC Start ##########\n",
           "\n########## Network TC End [PASS : 0, FAIL : 0] ##########\n"]
      ∧ driverWrites (network_tc_main envTwoFail cfgDhcpc 1 ["network_tc"] gStale).trace
        = ["\n########## Network TC Start ##########\n",
           "\n########## Network TC End [PASS : 0, FAIL : 2] ##########\n"] := by
  refine ⟨?_, ?_, ?_⟩
  · rw [network_tc_main_reports_sums envOnePass cfgSocketBindListen 1 ["network_tc"] gStale
      (fun _ => 1) (fun _ => 0)]
    · decide
    · intro ev hev e he
      have h := run_trace_after _ _ _ ev hev
      rw [he] at h
      simp [h, exec, envOnePass]
  · rw [network_tc_main_reports_sums envOnePass cfgNone 1 ["network_tc"] gStale
      (fun _ => 1) (fun _ => 0)]
    · decide
    · intro ev hev e he
      have h := run_trace_after _ _ _ ev hev
      rw [he] at h
      simp [h, exec, envOnePass]
  · rw [network_tc_main_reports_sums envTwoFail cfgDhcpc 1 ["network_tc"] gStale
      (fun _ => 0) (fun _ => 2)]
    · decide
    · intro ev hev e he
      have h := run_trace_after _ _ _ ev hev
      rw [he] at h
      simp [h, exec, envTwoFail]

/-- C3: whatever `total_pass` and `total_fail` held on entry, both are zero in
the variables seen by the first statement that uses them after the reset:
the call of the first enabled entry point, or the end `printf` when no
switch is defined. -/
theorem network_tc_main_counters_zero_at_first_use (env : Env) (cfg : Config) (argc : Int)
    (argv : List String) (g : Globals) :
    ∃ ev, (network_tc_main env cfg argc argv g).trace.find? (fun ev => ev.stmt.usesCounters)
          = some ev
      ∧ ev.stmt = (match declaredOrder.filter (fun e => cfg e.flag) with
          | [] => Stmt.printf_end
          | e :: _ => Stmt.call e)
      ∧ ev.before.total_pass = 0 ∧ ev.before.total_fail = 0 := by
  rw [main_shape]
  have hz := atDispatch_counters env g
  have hopen : (openingEvents env g).find? (fun ev => ev.stmt.usesCounters) = none := by
    simp [openingEvents, Stmt.usesCounters]
  rw [List.find?_append, hopen, Option.none_or]
  change ∃ ev, _ ∧ ev.stmt = (match enabledEntries cfg with
          | [] => Stmt.printf_end
          | e :: _ => Stmt.call e) ∧ _
  cases enabledEntries cfg with
  | nil =>
    exact ⟨⟨.printf_end, atDispatch env g, exec env .printf_end (atDispatch env g)⟩,
      by simp [callEvents, closingEvents, afterCalls, Stmt.usesCounters], rfl, hz.1, hz.2⟩
  | cons e l =>
    exact ⟨⟨.call e, atDispatch env g, env.tc e (atDispatch env g)⟩,
      by simp [callEvents, Stmt.usesCounters], rfl, hz.1, hz.2⟩

/-- C4: the values of `total_pass` and `total_fail` on entry do not reach the
result.  Two runs under the same configuration and the same behaviour of the
called code, started from variables that differ only in the two counters
(such as the variables left by an earlier run and fresh ones), write the same
banners, end with the same variables (the two counters included) and return
the same value. -/
theorem network_tc_main_no_counter_leak (env : Env) (cfg : Config) (argc : Int)
    (argv : List String) (g : Globals) (p f : Int) :
    driverWrites (network_tc_main env cfg argc argv { g with total_pass := p, total_fail := f }).trace
        = driverWrites (network_tc_main env cfg argc argv g).trace
      ∧ (network_tc_main env cfg argc argv { g with total_pass := p, total_fail := f }).g
        = (network_tc_main env cfg argc argv g).g
      ∧ (network_tc_main env cfg argc argv { g with total_pass := p, total_fail := f }).ret
        = (network_tc_main env cfg argc argv g).ret := by
  refine ⟨?_, ?_, ?_⟩
  · rw [driverWrites_main, driverWrites_main, atDispatch_reset_irrelevant]
  · rw [main_shape, main_shape, atDispatch_reset_irrelevant]
  · rw [main_shape, main_shape]

/-- C6: the driver writes two pieces of text and nothing else: the start
banner line (preceded and followed by a newline) before any entry point is
called, and the end banner line (likewise framed) after the last call, where
the two numbers are the decimal renderings of `total_pass` and `total_fail`
as the end `printf` finds them. -/
theorem network_tc_main_writes_two_banners (env : Env) (cfg : Config) (argc : Int)
    (argv : List String) (g : Globals) :
    ∃ ev ∈ (network_tc_main env cfg argc argv g).trace, ev.stmt = .printf_end
      ∧ driverWrites (network_tc_main env cfg argc argv g).trace
        = ["\n" ++ startBanner ++ "\n",
           "\n" ++ endBanner (toString ev.before.total_pass) (toString ev.before.total_fail)
             ++ "\n"]
      ∧ writesAndCalls (network_tc_main env cfg argc argv g).trace
        = [.inl ("\n" ++ startBanner ++ "\n")]
          ++ (declaredOrder.filter (fun e => cfg e.flag)).map .inr
          ++ [.inl ("\n" ++ endBanner (toString ev.before.total_pass)
                (toString ev.before.total_fail) ++ "\n")] := by
  refine ⟨⟨.printf_end, afterCalls env (enabledEntries cfg) (atDispatch env g),
    exec env .printf_end (afterCalls env (enabledEntries cfg) (atDispatch env g))⟩, ?_, rfl,
    ?_, ?_⟩
  · rw [main_shape]
    simp [closingEvents]
  · rw [driverWrites_main, startText_eq, endText_eq]
  · rw [main_shape]
    simp only [writesAndCalls_append, writesAndCalls_callEvents, ← startText_eq, ← endText_eq]
    simp [writesAndCalls, openingEvents, closingEvents, Stmt.output, enabledEntries]

/-- C8, as stated, fails when `working_tc` is `INT_MAX` on entry: no entry
point touches `working_tc`, yet the enabled entry point does not run with
the value on entry plus one, which no `int` can hold; `working_tc++` has
left `INT_MIN` in the variable. -/
theorem working_tc_plus_one_fails_at_int_max :
    (∀ e g, (envOnePass.tc e g).working_tc = g.working_tc)
      ∧ gWorkingMax.working_tc = INT_MAX
      ∧ ∃ ev ∈ (network_tc_main envOnePass cfgDhcpc 1 ["network_tc"] gWorkingMax).trace,
          ev.stmt = .call .net_dhcpc_main
            ∧ ev.before.working_tc = -2147483648
            ∧ ev.before.working_tc ≠ gWorkingMax.working_tc + 1 := by
  refine ⟨fun e g => rfl, rfl, ?_⟩
  refine ⟨⟨.call .net_dhcpc_main, ⟨0, -2147483648, 0, 0, startText⟩,
    ⟨0, -2147483648, 1, 0, startText⟩⟩, ?_, rfl, rfl, by decide⟩
  decide

/-- C8, amended: a run executes `working_tc++` once and `working_tc--` once.
When `working_tc` holds an `int` on entry and no call made during the run
changes it, it has its entry value again when the run returns; when that
value is moreover below `INT_MAX`, every entry point is called with, and
returns with, `working_tc` equal to the entry value plus one. -/
theorem network_tc_main_working_tc_balanced (env : Env) (cfg : Config) (argc : Int)
    (argv : List String) (g : Globals)
    (hlo : INT_MIN ≤ g.working_tc) (hhi : g.working_tc ≤ INT_MAX)
    (h : ∀ ev ∈ (network_tc_main env cfg argc argv g).trace, ∀ e, ev.stmt = .call e →
      ev.after.working_tc = ev.before.working_tc) :
    (actions (network_tc_main env cfg argc argv g).trace).count .working_tc_incr = 1
      ∧ (actions (network_tc_main env cfg argc argv g).trace).count .working_tc_decr = 1
      ∧ (network_tc_main env cfg argc argv g).g.working_tc = g.working_tc
      ∧ (g.working_tc < INT_MAX →
          ∀ ev ∈ (network_tc_main env cfg argc argv g).trace, ∀ e, ev.stmt = .call e →
            ev.before.working_tc = g.working_tc + 1
              ∧ ev.after.working_tc = g.working_tc + 1) := by
  have hc := callEvents_working_tc env (enabledEntries cfg) (atDispatch env g)
    (fun ev hev e he => h ev ((mem_main_call env cfg argc argv g ev e he).mpr hev) e he)
  have hd : (atDispatch env g).working_tc = wrapInt (g.working_tc + 1) := by
    simp [atDispatch, exec]
  unfold INT_MIN at hlo
  unfold INT_MAX at hhi
  refine ⟨by rw [actions_main, body_count_incr], by rw [actions_main, body_count_decr], ?_, ?_⟩
  · rw [main_shape]
    simp only [atReturn, exec]
    rw [hc.1, hd]
    unfold wrapInt
    omega
  · intro hlt ev hev e he
    unfold INT_MAX at hlt
    have := hc.2 ev ((mem_main_call env cfg argc argv g ev e he).mp hev)
    rw [hd] at this
    unfold wrapInt at this
    constructor <;> omega

/-- An instance of amended C8: one run from `working_tc = 0` with three
enabled entry points. -/
theorem network_tc_main_working_tc_balanced_witness :
    (network_tc_main envOnePass cfgSocketBindListen 1 ["network_tc"] gStale).g.working_tc = 0
      ∧ ∀ ev ∈ (network_tc_main envOnePass cfgSocketBindListen 1 ["network_tc"] gStale).trace,
          ∀ e, ev.stmt = .call e → ev.before.working_tc = 1 ∧ ev.after.working_tc = 1 := by
  have hw := network_tc_main_working_tc_balanced envOnePass cfgSocketBindListen 1
    ["network_tc"] gStale (by decide) (by decide)
    (fun ev hev e he => by
      have h := run_trace_after _ _ _ ev hev
      rw [he] at h
      simp [h, exec, envOnePass])
  exact ⟨hw.2.2.1, fun ev hev e he => by simpa [gStale] using hw.2.2.2 (by decide) ev hev e he⟩

/-! ## Checks on a sample run -/

/-- A run whose only enabled entry point records two failures ends with
`total_fail = 2`, still returns 0, and leaves `tc_sem` and `working_tc` as
it found them. -/
theorem sample_run_with_failures :
    (network_tc_main envTwoFail cfgDhcpc 1 ["network_tc"] gStale).g
        = ⟨1, 0, 0, 2, "earlier output\n\n########## Network TC Start ##########\n"
            ++ "\n########## Network TC End [PASS : 0, FAIL : 2] ##########\n"⟩
      ∧ (network_tc_main envTwoFail cfgDhcpc 1 ["network_tc"] gStale).ret = some 0 := by
  decide

end NetworkTc
